import Mathlib

/-!
Verification development for the UETPFCore repository.

Shallow embedding of the engine-independent parts of the codebase:
the sparse world-delta persistence system (`DeltaTypes.h`, `FileDeltaStore.cpp`),
the spec resolution registries (`SurfaceQuerySubsystem.cpp`, `EnvironmentSubsystem.cpp`),
the SpecPack JSON loader (`SpecPackLoader.cpp`), and the astronomical /
atmospheric math (`SolarSystemSubsystem.cpp`, `GlobalAtmosphereField.cpp`).

Machine floats and doubles are idealised as real numbers; UE container types
are modelled as follows: `TMap K V` as `K → Option V` (or an association list
where iteration/caching order matters), `TSet K` as a duplicate-free `List K`,
`TArray V` as `List V`, `FName`/`FString` as `String`.
-/

namespace UETPF

/-- FVector (three machine floats, idealised as reals). -/
structure FVector where
  X : ℝ
  Y : ℝ
  Z : ℝ

/-- FQuat (rotation quaternion). -/
structure FQuat where
  X : ℝ
  Y : ℝ
  Z : ℝ
  W : ℝ

/-- FTransform: rotation, translation, 3D scale. -/
structure FTransform where
  Rotation : FQuat
  Translation : FVector
  Scale3D : FVector

/-- FGuid: four 32-bit components. Only compared, never computed with, so
modelled as four naturals. -/
structure FGuid where
  A : ℕ
  B : ℕ
  C : ℕ
  D : ℕ

/-- `EDeltaType` from DeltaTypes.h: the six kinds of persisted deltas. -/
inductive EDeltaType
  | SurfaceTile
  | Fracture
  | Transform
  | Spawn
  | Remove
  | Assembly
deriving DecidableEq

/-- `FWorldCellKey` from DeltaTypes.h: (X, Y, LOD) integer triple identifying
a world partition cell. -/
structure FWorldCellKey where
  X : Int
  Y : Int
  LOD : Int
deriving DecidableEq

/-- `ESurfaceDeltaOperation` from DeltaTypes.h. -/
inductive ESurfaceDeltaOperation
  | Set
  | Add
  | Subtract
  | Multiply
  | Max
  | Min
deriving DecidableEq

/-- `ESurfaceDeltaChannel` from DeltaTypes.h. -/
inductive ESurfaceDeltaChannel
  | SnowDepth
  | SnowCompaction
  | Wetness
  | TemperatureDelta
  | Toxicity
  | CustomA
  | CustomB
deriving DecidableEq

/-- `FDamageSpecId` (SpecTypes.h): a named spec identifier. -/
structure FDamageSpecId where
  Id : String

/-- `FSurfaceTileDelta` from DeltaTypes.h, field for field. -/
structure FSurfaceTileDelta where
  CellKey : FWorldCellKey
  TileIndex : Int
  WorldLocation : FVector
  Radius : ℝ
  Channel : ESurfaceDeltaChannel
  Operation : ESurfaceDeltaOperation
  Value : ℝ
  Timestamp : ℝ
  AuthorPlayerId : String

/-- `FFractureDelta` from DeltaTypes.h, field for field. -/
structure FFractureDelta where
  CellKey : FWorldCellKey
  ActorGuid : FGuid
  DamageSpecId : FDamageSpecId
  BrokenChunks : List Int
  bIsSleeping : Bool
  Timestamp : ℝ

/-- `FTransformDelta` from DeltaTypes.h, field for field. -/
structure FTransformDelta where
  CellKey : FWorldCellKey
  ActorGuid : FGuid
  Transform : FTransform
  bPhysicsEnabled : Bool
  bIsSleeping : Bool
  Timestamp : ℝ

/-- `FSpawnDelta` from DeltaTypes.h, field for field (`TSoftClassPtr<AActor>`
modelled as the class path string). -/
structure FSpawnDelta where
  CellKey : FWorldCellKey
  ActorGuid : FGuid
  PCGInstanceId : Int
  ActorClass : String
  SpawnTransform : FTransform
  Timestamp : ℝ

/-- `FRemoveDelta` from DeltaTypes.h, field for field. -/
structure FRemoveDelta where
  CellKey : FWorldCellKey
  ActorGuid : FGuid
  RemovalReason : String
  Timestamp : ℝ

/-- `FAssemblyDelta` from DeltaTypes.h, field for field. -/
structure FAssemblyDelta where
  CellKey : FWorldCellKey
  AssemblyGuid : FGuid
  AssemblySpecId : String
  Transform : FTransform
  bIsSleeping : Bool
  DamagedParts : List Int
  StateVariables : List (String × ℝ)
  Timestamp : ℝ

/-- In-memory state of `UFileDeltaStore` (FileDeltaStore.h lines 167-181):
six per-cell delta maps, the dirty-cell set, and the bookkeeping fields.
The file-system side effects of the class are not part of this state. -/
structure UFileDeltaStore where
  CurrentWorldName : String
  BaseSaveDirectory : String
  bIsInitialized : Bool
  SurfaceDeltas : FWorldCellKey → Option (List FSurfaceTileDelta)
  FractureDeltas : FWorldCellKey → Option (List FFractureDelta)
  TransformDeltas : FWorldCellKey → Option (List FTransformDelta)
  SpawnDeltas : FWorldCellKey → Option (List FSpawnDelta)
  RemoveDeltas : FWorldCellKey → Option (List FRemoveDelta)
  AssemblyDeltas : FWorldCellKey → Option (List FAssemblyDelta)
  DirtyCells : List FWorldCellKey

/-- A freshly constructed store (`UFileDeltaStore::UFileDeltaStore`): empty
maps, empty dirty set, not yet initialised. -/
def newFileDeltaStore : UFileDeltaStore where
  CurrentWorldName := ""
  BaseSaveDirectory := "GameSaveData"
  bIsInitialized := false
  SurfaceDeltas := fun _ => none
  FractureDeltas := fun _ => none
  TransformDeltas := fun _ => none
  SpawnDeltas := fun _ => none
  RemoveDeltas := fun _ => none
  AssemblyDeltas := fun _ => none
  DirtyCells := []

/-- `Map.FindOrAdd(Key).Add(Value)`: append `v` to the array kept for `k`,
creating the entry (from the empty array) if absent. -/
def mapAppendAt {α : Type} (m : FWorldCellKey → Option (List α))
    (k : FWorldCellKey) (v : α) : FWorldCellKey → Option (List α) :=
  fun k2 => if k2 = k then some ((m k).getD [] ++ [v]) else m k2

/-- `TSet.Add`: add the key to the set if not already present. -/
def tsetAdd (s : List FWorldCellKey) (k : FWorldCellKey) : List FWorldCellKey :=
  if k ∈ s then s else s ++ [k]

/-- `UFileDeltaStore::AppendSurfaceDelta` (FileDeltaStore.cpp lines 50-54). -/
def appendSurfaceDelta (s : UFileDeltaStore) (d : FSurfaceTileDelta) : UFileDeltaStore :=
  { s with SurfaceDeltas := mapAppendAt s.SurfaceDeltas d.CellKey d
           DirtyCells := tsetAdd s.DirtyCells d.CellKey }

/-- `UFileDeltaStore::AppendFractureDelta` (FileDeltaStore.cpp lines 56-60). -/
def appendFractureDelta (s : UFileDeltaStore) (d : FFractureDelta) : UFileDeltaStore :=
  { s with FractureDeltas := mapAppendAt s.FractureDeltas d.CellKey d
           DirtyCells := tsetAdd s.DirtyCells d.CellKey }

/-- `UFileDeltaStore::AppendTransformDelta` (FileDeltaStore.cpp lines 62-66). -/
def appendTransformDelta (s : UFileDeltaStore) (d : FTransformDelta) : UFileDeltaStore :=
  { s with TransformDeltas := mapAppendAt s.TransformDeltas d.CellKey d
           DirtyCells := tsetAdd s.DirtyCells d.CellKey }

/-- `UFileDeltaStore::AppendSpawnDelta` (FileDeltaStore.cpp lines 68-72). -/
def appendSpawnDelta (s : UFileDeltaStore) (d : FSpawnDelta) : UFileDeltaStore :=
  { s with SpawnDeltas := mapAppendAt s.SpawnDeltas d.CellKey d
           DirtyCells := tsetAdd s.DirtyCells d.CellKey }

/-- `UFileDeltaStore::AppendRemoveDelta` (FileDeltaStore.cpp lines 74-78). -/
def appendRemoveDelta (s : UFileDeltaStore) (d : FRemoveDelta) : UFileDeltaStore :=
  { s with RemoveDeltas := mapAppendAt s.RemoveDeltas d.CellKey d
           DirtyCells := tsetAdd s.DirtyCells d.CellKey }

/-- `UFileDeltaStore::AppendAssemblyDelta` (FileDeltaStore.cpp lines 80-84). -/
def appendAssemblyDelta (s : UFileDeltaStore) (d : FAssemblyDelta) : UFileDeltaStore :=
  { s with AssemblyDeltas := mapAppendAt s.AssemblyDeltas d.CellKey d
           DirtyCells := tsetAdd s.DirtyCells d.CellKey }

/-- `UFileDeltaStore::GetSurfaceDeltas` (FileDeltaStore.cpp lines 87-94):
return the stored array, or the empty array when the cell has no entry. -/
def getSurfaceDeltas (s : UFileDeltaStore) (c : FWorldCellKey) : List FSurfaceTileDelta :=
  (s.SurfaceDeltas c).getD []

/-- `UFileDeltaStore::GetFractureDeltas` (FileDeltaStore.cpp lines 96-103). -/
def getFractureDeltas (s : UFileDeltaStore) (c : FWorldCellKey) : List FFractureDelta :=
  (s.FractureDeltas c).getD []

/-- `UFileDeltaStore::GetTransformDeltas` (FileDeltaStore.cpp lines 105-112). -/
def getTransformDeltas (s : UFileDeltaStore) (c : FWorldCellKey) : List FTransformDelta :=
  (s.TransformDeltas c).getD []

/-- `UFileDeltaStore::GetSpawnDeltas` (FileDeltaStore.cpp lines 114-121). -/
def getSpawnDeltas (s : UFileDeltaStore) (c : FWorldCellKey) : List FSpawnDelta :=
  (s.SpawnDeltas c).getD []

/-- `UFileDeltaStore::GetRemoveDeltas` (FileDeltaStore.cpp lines 123-130). -/
def getRemoveDeltas (s : UFileDeltaStore) (c : FWorldCellKey) : List FRemoveDelta :=
  (s.RemoveDeltas c).getD []

/-- `UFileDeltaStore::GetAssemblyDeltas` (FileDeltaStore.cpp lines 132-139). -/
def getAssemblyDeltas (s : UFileDeltaStore) (c : FWorldCellKey) : List FAssemblyDelta :=
  (s.AssemblyDeltas c).getD []

/-- `UFileDeltaStore::ClearCellDeltas` (FileDeltaStore.cpp lines 141-150):
remove the cell from every map and from the dirty set. -/
def clearCellDeltas (s : UFileDeltaStore) (c : FWorldCellKey) : UFileDeltaStore :=
  { s with SurfaceDeltas := fun k => if k = c then none else s.SurfaceDeltas k
           FractureDeltas := fun k => if k = c then none else s.FractureDeltas k
           TransformDeltas := fun k => if k = c then none else s.TransformDeltas k
           SpawnDeltas := fun k => if k = c then none else s.SpawnDeltas k
           RemoveDeltas := fun k => if k = c then none else s.RemoveDeltas k
           AssemblyDeltas := fun k => if k = c then none else s.AssemblyDeltas k
           DirtyCells := s.DirtyCells.erase c }

/-- In-memory effect of `UFileDeltaStore::Flush` (FileDeltaStore.cpp
lines 152-295). The body returns immediately when the store is not
initialised or no cell is dirty; otherwise the only mutation of the
in-memory state is `DirtyCells.Empty()` (the JSON writing happens in the
launched task on copies and touches no member of the store). -/
def flush (s : UFileDeltaStore) : UFileDeltaStore :=
  if s.bIsInitialized = false ∨ s.DirtyCells = [] then s
  else { s with DirtyCells := [] }

/-- The six append operations, as a single trace alphabet. -/
inductive DeltaOp
  | surface (d : FSurfaceTileDelta)
  | fracture (d : FFractureDelta)
  | transform (d : FTransformDelta)
  | spawn (d : FSpawnDelta)
  | remove (d : FRemoveDelta)
  | assembly (d : FAssemblyDelta)

/-- Dispatch one append operation. -/
def applyOp (s : UFileDeltaStore) (op : DeltaOp) : UFileDeltaStore :=
  match op with
  | .surface d => appendSurfaceDelta s d
  | .fracture d => appendFractureDelta s d
  | .transform d => appendTransformDelta s d
  | .spawn d => appendSpawnDelta s d
  | .remove d => appendRemoveDelta s d
  | .assembly d => appendAssemblyDelta s d

/-- Run a sequence of append operations from left to right. -/
def runOps (s : UFileDeltaStore) (ops : List DeltaOp) : UFileDeltaStore :=
  ops.foldl applyOp s

/-- The delta type an operation appends. -/
def opDeltaType (op : DeltaOp) : EDeltaType :=
  match op with
  | .surface _ => .SurfaceTile
  | .fracture _ => .Fracture
  | .transform _ => .Transform
  | .spawn _ => .Spawn
  | .remove _ => .Remove
  | .assembly _ => .Assembly

/-- The cell key of the delta an operation appends. -/
def opCellKey (op : DeltaOp) : FWorldCellKey :=
  match op with
  | .surface d => d.CellKey
  | .fracture d => d.CellKey
  | .transform d => d.CellKey
  | .spawn d => d.CellKey
  | .remove d => d.CellKey
  | .assembly d => d.CellKey

/-- Contribution of one operation to the surface-delta list of cell `c`. -/
def surfaceContrib (op : DeltaOp) (c : FWorldCellKey) : List FSurfaceTileDelta :=
  match op with
  | .surface d => if d.CellKey = c then [d] else []
  | _ => []

/-- Contribution of one operation to the fracture-delta list of cell `c`. -/
def fractureContrib (op : DeltaOp) (c : FWorldCellKey) : List FFractureDelta :=
  match op with
  | .fracture d => if d.CellKey = c then [d] else []
  | _ => []

/-- Contribution of one operation to the transform-delta list of cell `c`. -/
def transformContrib (op : DeltaOp) (c : FWorldCellKey) : List FTransformDelta :=
  match op with
  | .transform d => if d.CellKey = c then [d] else []
  | _ => []

/-- Contribution of one operation to the spawn-delta list of cell `c`. -/
def spawnContrib (op : DeltaOp) (c : FWorldCellKey) : List FSpawnDelta :=
  match op with
  | .spawn d => if d.CellKey = c then [d] else []
  | _ => []

/-- Contribution of one operation to the remove-delta list of cell `c`. -/
def removeContrib (op : DeltaOp) (c : FWorldCellKey) : List FRemoveDelta :=
  match op with
  | .remove d => if d.CellKey = c then [d] else []
  | _ => []

/-- Contribution of one operation to the assembly-delta list of cell `c`. -/
def assemblyContrib (op : DeltaOp) (c : FWorldCellKey) : List FAssemblyDelta :=
  match op with
  | .assembly d => if d.CellKey = c then [d] else []
  | _ => []

/-- The surface deltas appended for cell `c` by a trace, in append order. -/
def collectSurface (ops : List DeltaOp) (c : FWorldCellKey) : List FSurfaceTileDelta :=
  ops.foldr (fun op acc => surfaceContrib op c ++ acc) []

/-- The fracture deltas appended for cell `c` by a trace, in append order. -/
def collectFracture (ops : List DeltaOp) (c : FWorldCellKey) : List FFractureDelta :=
  ops.foldr (fun op acc => fractureContrib op c ++ acc) []

/-- The transform deltas appended for cell `c` by a trace, in append order. -/
def collectTransform (ops : List DeltaOp) (c : FWorldCellKey) : List FTransformDelta :=
  ops.foldr (fun op acc => transformContrib op c ++ acc) []

/-- The spawn deltas appended for cell `c` by a trace, in append order. -/
def collectSpawn (ops : List DeltaOp) (c : FWorldCellKey) : List FSpawnDelta :=
  ops.foldr (fun op acc => spawnContrib op c ++ acc) []

/-- The remove deltas appended for cell `c` by a trace, in append order. -/
def collectRemove (ops : List DeltaOp) (c : FWorldCellKey) : List FRemoveDelta :=
  ops.foldr (fun op acc => removeContrib op c ++ acc) []

/-- The assembly deltas appended for cell `c` by a trace, in append order. -/
def collectAssembly (ops : List DeltaOp) (c : FWorldCellKey) : List FAssemblyDelta :=
  ops.foldr (fun op acc => assemblyContrib op c ++ acc) []

lemma getSurfaceDeltas_applyOp (s : UFileDeltaStore) (op : DeltaOp) (c : FWorldCellKey) :
    getSurfaceDeltas (applyOp s op) c = getSurfaceDeltas s c ++ surfaceContrib op c := by
  cases op with
  | surface d =>
    by_cases h : c = d.CellKey
    · subst h
      simp [getSurfaceDeltas, applyOp, appendSurfaceDelta, mapAppendAt, surfaceContrib]
    · simp [getSurfaceDeltas, applyOp, appendSurfaceDelta, mapAppendAt, surfaceContrib, h,
        Ne.symm h]
  | fracture d => simp [getSurfaceDeltas, applyOp, appendFractureDelta, surfaceContrib]
  | transform d => simp [getSurfaceDeltas, applyOp, appendTransformDelta, surfaceContrib]
  | spawn d => simp [getSurfaceDeltas, applyOp, appendSpawnDelta, surfaceContrib]
  | remove d => simp [getSurfaceDeltas, applyOp, appendRemoveDelta, surfaceContrib]
  | assembly d => simp [getSurfaceDeltas, applyOp, appendAssemblyDelta, surfaceContrib]

lemma getFractureDeltas_applyOp (s : UFileDeltaStore) (op : DeltaOp) (c : FWorldCellKey) :
    getFractureDeltas (applyOp s op) c = getFractureDeltas s c ++ fractureContrib op c := by
  cases op with
  | fracture d =>
    by_cases h : c = d.CellKey
    · subst h
      simp [getFractureDeltas, applyOp, appendFractureDelta, mapAppendAt, fractureContrib]
    · simp [getFractureDeltas, applyOp, appendFractureDelta, mapAppendAt, fractureContrib, h,
        Ne.symm h]
  | surface d => simp [getFractureDeltas, applyOp, appendSurfaceDelta, fractureContrib]
  | transform d => simp [getFractureDeltas, applyOp, appendTransformDelta, fractureContrib]
  | spawn d => simp [getFractureDeltas, applyOp, appendSpawnDelta, fractureContrib]
  | remove d => simp [getFractureDeltas, applyOp, appendRemoveDelta, fractureContrib]
  | assembly d => simp [getFractureDeltas, applyOp, appendAssemblyDelta, fractureContrib]

lemma getTransformDeltas_applyOp (s : UFileDeltaStore) (op : DeltaOp) (c : FWorldCellKey) :
    getTransformDeltas (applyOp s op) c = getTransformDeltas s c ++ transformContrib op c := by
  cases op with
  | transform d =>
    by_cases h : c = d.CellKey
    · subst h
      simp [getTransformDeltas, applyOp, appendTransformDelta, mapAppendAt, transformContrib]
    · simp [getTransformDeltas, applyOp, appendTransformDelta, mapAppendAt, transformContrib, h,
        Ne.symm h]
  | surface d => simp [getTransformDeltas, applyOp, appendSurfaceDelta, transformContrib]
  | fracture d => simp [getTransformDeltas, applyOp, appendFractureDelta, transformContrib]
  | spawn d => simp [getTransformDeltas, applyOp, appendSpawnDelta, transformContrib]
  | remove d => simp [getTransformDeltas, applyOp, appendRemoveDelta, transformContrib]
  | assembly d => simp [getTransformDeltas, applyOp, appendAssemblyDelta, transformContrib]

lemma getSpawnDeltas_applyOp (s : UFileDeltaStore) (op : DeltaOp) (c : FWorldCellKey) :
    getSpawnDeltas (applyOp s op) c = getSpawnDeltas s c ++ spawnContrib op c := by
  cases op with
  | spawn d =>
    by_cases h : c = d.CellKey
    · subst h
      simp [getSpawnDeltas, applyOp, appendSpawnDelta, mapAppendAt, spawnContrib]
    · simp [getSpawnDeltas, applyOp, appendSpawnDelta, mapAppendAt, spawnContrib, h, Ne.symm h]
  | surface d => simp [getSpawnDeltas, applyOp, appendSurfaceDelta, spawnContrib]
  | fracture d => simp [getSpawnDeltas, applyOp, appendFractureDelta, spawnContrib]
  | transform d => simp [getSpawnDeltas, applyOp, appendTransformDelta, spawnContrib]
  | remove d => simp [getSpawnDeltas, applyOp, appendRemoveDelta, spawnContrib]
  | assembly d => simp [getSpawnDeltas, applyOp, appendAssemblyDelta, spawnContrib]

lemma getRemoveDeltas_applyOp (s : UFileDeltaStore) (op : DeltaOp) (c : FWorldCellKey) :
    getRemoveDeltas (applyOp s op) c = getRemoveDeltas s c ++ removeContrib op c := by
  cases op with
  | remove d =>
    by_cases h : c = d.CellKey
    · subst h
      simp [getRemoveDeltas, applyOp, appendRemoveDelta, mapAppendAt, removeContrib]
    · simp [getRemoveDeltas, applyOp, appendRemoveDelta, mapAppendAt, removeContrib, h, Ne.symm h]
  | surface d => simp [getRemoveDeltas, applyOp, appendSurfaceDelta, removeContrib]
  | fracture d => simp [getRemoveDeltas, applyOp, appendFractureDelta, removeContrib]
  | transform d => simp [getRemoveDeltas, applyOp, appendTransformDelta, removeContrib]
  | spawn d => simp [getRemoveDeltas, applyOp, appendSpawnDelta, removeContrib]
  | assembly d => simp [getRemoveDeltas, applyOp, appendAssemblyDelta, removeContrib]

lemma getAssemblyDeltas_applyOp (s : UFileDeltaStore) (op : DeltaOp) (c : FWorldCellKey) :
    getAssemblyDeltas (applyOp s op) c = getAssemblyDeltas s c ++ assemblyContrib op c := by
  cases op with
  | assembly d =>
    by_cases h : c = d.CellKey
    · subst h
      simp [getAssemblyDeltas, applyOp, appendAssemblyDelta, mapAppendAt, assemblyContrib]
    · simp [getAssemblyDeltas, applyOp, appendAssemblyDelta, mapAppendAt, assemblyContrib, h,
        Ne.symm h]
  | surface d => simp [getAssemblyDeltas, applyOp, appendSurfaceDelta, assemblyContrib]
  | fracture d => simp [getAssemblyDeltas, applyOp, appendFractureDelta, assemblyContrib]
  | transform d => simp [getAssemblyDeltas, applyOp, appendTransformDelta, assemblyContrib]
  | spawn d => simp [getAssemblyDeltas, applyOp, appendSpawnDelta, assemblyContrib]
  | remove d => simp [getAssemblyDeltas, applyOp, appendRemoveDelta, assemblyContrib]

lemma getSurfaceDeltas_runOps (ops : List DeltaOp) (s : UFileDeltaStore) (c : FWorldCellKey) :
    getSurfaceDeltas (runOps s ops) c = getSurfaceDeltas s c ++ collectSurface ops c := by
  induction ops generalizing s with
  | nil => simp [runOps, collectSurface]
  | cons op ops ih =>
    simp [runOps, collectSurface, List.foldl_cons] at ih ⊢
    rw [ih, getSurfaceDeltas_applyOp, List.append_assoc]

lemma getFractureDeltas_runOps (ops : List DeltaOp) (s : UFileDeltaStore) (c : FWorldCellKey) :
    getFractureDeltas (runOps s ops) c = getFractureDeltas s c ++ collectFracture ops c := by
  induction ops generalizing s with
  | nil => simp [runOps, collectFracture]
  | cons op ops ih =>
    simp [runOps, collectFracture, List.foldl_cons] at ih ⊢
    rw [ih, getFractureDeltas_applyOp, List.append_assoc]

lemma getTransformDeltas_runOps (ops : List DeltaOp) (s : UFileDeltaStore) (c : FWorldCellKey) :
    getTransformDeltas (runOps s ops) c = getTransformDeltas s c ++ collectTransform ops c := by
  induction ops generalizing s with
  | nil => simp [runOps, collectTransform]
  | cons op ops ih =>
    simp [runOps, collectTransform, List.foldl_cons] at ih ⊢
    rw [ih, getTransformDeltas_applyOp, List.append_assoc]

lemma getSpawnDeltas_runOps (ops : List DeltaOp) (s : UFileDeltaStore) (c : FWorldCellKey) :
    getSpawnDeltas (runOps s ops) c = getSpawnDeltas s c ++ collectSpawn ops c := by
  induction ops generalizing s with
  | nil => simp [runOps, collectSpawn]
  | cons op ops ih =>
    simp [runOps, collectSpawn, List.foldl_cons] at ih ⊢
    rw [ih, getSpawnDeltas_applyOp, List.append_assoc]

lemma getRemoveDeltas_runOps (ops : List DeltaOp) (s : UFileDeltaStore) (c : FWorldCellKey) :
    getRemoveDeltas (runOps s ops) c = getRemoveDeltas s c ++ collectRemove ops c := by
  induction ops generalizing s with
  | nil => simp [runOps, collectRemove]
  | cons op ops ih =>
    simp [runOps, collectRemove, List.foldl_cons] at ih ⊢
    rw [ih, getRemoveDeltas_applyOp, List.append_assoc]

lemma getAssemblyDeltas_runOps (ops : List DeltaOp) (s : UFileDeltaStore) (c : FWorldCellKey) :
    getAssemblyDeltas (runOps s ops) c = getAssemblyDeltas s c ++ collectAssembly ops c := by
  induction ops generalizing s with
  | nil => simp [runOps, collectAssembly]
  | cons op ops ih =>
    simp [runOps, collectAssembly, List.foldl_cons] at ih ⊢
    rw [ih, getAssemblyDeltas_applyOp, List.append_assoc]

lemma dirtyCells_applyOp (s : UFileDeltaStore) (op : DeltaOp) :
    (applyOp s op).DirtyCells = tsetAdd s.DirtyCells (opCellKey op) := by
  cases op <;> rfl

lemma mem_tsetAdd (s : List FWorldCellKey) (k : FWorldCellKey) : k ∈ tsetAdd s k := by
  by_cases h : k ∈ s <;> simp [tsetAdd, h]

/-- C1: delta accumulation is cell-keyed and append-only. Each of the six
Append operations appends its delta to the list of the delta's cell and marks
that cell dirty; after any trace of append operations starting from a fresh
store, each Get returns exactly the deltas of that type appended for that cell,
in append order (the empty array if none); and a single append changes, of the
thirty-six (delta type, cell) lists, only the one it targets. -/
theorem c1_delta_accumulation_cell_keyed_append_only :
    (∀ ops c, getSurfaceDeltas (runOps newFileDeltaStore ops) c = collectSurface ops c) ∧
    (∀ ops c, getFractureDeltas (runOps newFileDeltaStore ops) c = collectFracture ops c) ∧
    (∀ ops c, getTransformDeltas (runOps newFileDeltaStore ops) c = collectTransform ops c) ∧
    (∀ ops c, getSpawnDeltas (runOps newFileDeltaStore ops) c = collectSpawn ops c) ∧
    (∀ ops c, getRemoveDeltas (runOps newFileDeltaStore ops) c = collectRemove ops c) ∧
    (∀ ops c, getAssemblyDeltas (runOps newFileDeltaStore ops) c = collectAssembly ops c) ∧
    (∀ s op, (applyOp s op).DirtyCells = tsetAdd s.DirtyCells (opCellKey op)) ∧
    (∀ s op, opCellKey op ∈ (applyOp s op).DirtyCells) ∧
    (∀ s op c, getSurfaceDeltas (applyOp s op) c = getSurfaceDeltas s c ++ surfaceContrib op c) ∧
    (∀ s op c, getFractureDeltas (applyOp s op) c = getFractureDeltas s c ++ fractureContrib op c) ∧
    (∀ s op c,
      getTransformDeltas (applyOp s op) c = getTransformDeltas s c ++ transformContrib op c) ∧
    (∀ s op c, getSpawnDeltas (applyOp s op) c = getSpawnDeltas s c ++ spawnContrib op c) ∧
    (∀ s op c, getRemoveDeltas (applyOp s op) c = getRemoveDeltas s c ++ removeContrib op c) ∧
    (∀ s op c, getAssemblyDeltas (applyOp s op) c = getAssemblyDeltas s c ++ assemblyContrib op c) := by
  refine ⟨?_, ?_, ?_, ?_, ?_, ?_, dirtyCells_applyOp, ?_, getSurfaceDeltas_applyOp,
    getFractureDeltas_applyOp, getTransformDeltas_applyOp, getSpawnDeltas_applyOp,
    getRemoveDeltas_applyOp, getAssemblyDeltas_applyOp⟩
  · intro ops c
    rw [getSurfaceDeltas_runOps]
    simp [getSurfaceDeltas, newFileDeltaStore]
  · intro ops c
    rw [getFractureDeltas_runOps]
    simp [getFractureDeltas, newFileDeltaStore]
  · intro ops c
    rw [getTransformDeltas_runOps]
    simp [getTransformDeltas, newFileDeltaStore]
  · intro ops c
    rw [getSpawnDeltas_runOps]
    simp [getSpawnDeltas, newFileDeltaStore]
  · intro ops c
    rw [getRemoveDeltas_runOps]
    simp [getRemoveDeltas, newFileDeltaStore]
  · intro ops c
    rw [getAssemblyDeltas_runOps]
    simp [getAssemblyDeltas, newFileDeltaStore]
  · intro s op
    rw [dirtyCells_applyOp]
    exact mem_tsetAdd _ _

/-- C10: Flush never changes the stored deltas. Every getter returns the same
array after a Flush as before it; Flush changes no field other than the
dirty-cell set; and when the store is uninitialised or no cell is dirty it is
the identity on the whole in-memory state, dirty set included. -/
theorem c10_flush_preserves_in_memory_deltas :
    ∀ s : UFileDeltaStore,
      (∀ c, getSurfaceDeltas (flush s) c = getSurfaceDeltas s c) ∧
      (∀ c, getFractureDeltas (flush s) c = getFractureDeltas s c) ∧
      (∀ c, getTransformDeltas (flush s) c = getTransformDeltas s c) ∧
      (∀ c, getSpawnDeltas (flush s) c = getSpawnDeltas s c) ∧
      (∀ c, getRemoveDeltas (flush s) c = getRemoveDeltas s c) ∧
      (∀ c, getAssemblyDeltas (flush s) c = getAssemblyDeltas s c) ∧
      (flush s).SurfaceDeltas = s.SurfaceDeltas ∧
      (flush s).FractureDeltas = s.FractureDeltas ∧
      (flush s).TransformDeltas = s.TransformDeltas ∧
      (flush s).SpawnDeltas = s.SpawnDeltas ∧
      (flush s).RemoveDeltas = s.RemoveDeltas ∧
      (flush s).AssemblyDeltas = s.AssemblyDeltas ∧
      (flush s).CurrentWorldName = s.CurrentWorldName ∧
      (flush s).BaseSaveDirectory = s.BaseSaveDirectory ∧
      (flush s).bIsInitialized = s.bIsInitialized ∧
      (flush s = if s.bIsInitialized = false ∨ s.DirtyCells = [] then s
        else { s with DirtyCells := [] }) := by
  intro s
  unfold flush
  by_cases h : s.bIsInitialized = false ∨ s.DirtyCells = []
  · simp [h]
  · simp [h, getSurfaceDeltas, getFractureDeltas, getTransformDeltas, getSpawnDeltas,
      getRemoveDeltas, getAssemblyDeltas]

/-!
Field-level reflection of the six USTRUCT delta record declarations in
DeltaTypes.h, used for the structural data-model claims: each list holds the
UPROPERTY fields of the struct, in declaration order, with their UE types.
-/

/-- UE property types occurring in the six delta USTRUCTs of DeltaTypes.h. -/
inductive FieldTy
  | cellKey
  | guid
  | damageSpecId
  | name
  | int32
  | int64
  | real32
  | real64
  | boolean
  | vector
  | transformTy
  | surfaceChannel
  | surfaceOperation
  | int32Array
  | softClassPtr
  | nameRealMap
deriving DecidableEq

/-- Fields of `FSurfaceTileDelta` (DeltaTypes.h lines 140-182). -/
def surfaceTileDeltaFields : List (String × FieldTy) :=
  [("CellKey", .cellKey), ("TileIndex", .int32), ("WorldLocation", .vector),
   ("Radius", .real32), ("Channel", .surfaceChannel), ("Operation", .surfaceOperation),
   ("Value", .real32), ("Timestamp", .real64), ("AuthorPlayerId", .name)]

/-- Fields of `FFractureDelta` (DeltaTypes.h lines 192-222). -/
def fractureDeltaFields : List (String × FieldTy) :=
  [("CellKey", .cellKey), ("ActorGuid", .guid), ("DamageSpecId", .damageSpecId),
   ("BrokenChunks", .int32Array), ("bIsSleeping", .boolean), ("Timestamp", .real64)]

/-- Fields of `FTransformDelta` (DeltaTypes.h lines 232-262). -/
def transformDeltaFields : List (String × FieldTy) :=
  [("CellKey", .cellKey), ("ActorGuid", .guid), ("Transform", .transformTy),
   ("bPhysicsEnabled", .boolean), ("bIsSleeping", .boolean), ("Timestamp", .real64)]

/-- Fields of `FSpawnDelta` (DeltaTypes.h lines 272-302). -/
def spawnDeltaFields : List (String × FieldTy) :=
  [("CellKey", .cellKey), ("ActorGuid", .guid), ("PCGInstanceId", .int64),
   ("ActorClass", .softClassPtr), ("SpawnTransform", .transformTy), ("Timestamp", .real64)]

/-- Fields of `FRemoveDelta` (DeltaTypes.h lines 312-334). -/
def removeDeltaFields : List (String × FieldTy) :=
  [("CellKey", .cellKey), ("ActorGuid", .guid), ("RemovalReason", .name),
   ("Timestamp", .real64)]

/-- Fields of `FAssemblyDelta` (DeltaTypes.h lines 344-382). -/
def assemblyDeltaFields : List (String × FieldTy) :=
  [("CellKey", .cellKey), ("AssemblyGuid", .guid), ("AssemblySpecId", .name),
   ("Transform", .transformTy), ("bIsSleeping", .boolean), ("DamagedParts", .int32Array),
   ("StateVariables", .nameRealMap), ("Timestamp", .real64)]

/-- The six delta record types of the data model, in DeltaTypes.h order. -/
def allDeltaFieldLists : List (List (String × FieldTy)) :=
  [surfaceTileDeltaFields, fractureDeltaFields, transformDeltaFields,
   spawnDeltaFields, removeDeltaFields, assemblyDeltaFields]

/-- Does the record have a field of the given UE type? -/
def hasFieldOfTy (fs : List (String × FieldTy)) (t : FieldTy) : Bool :=
  fs.any (fun p => decide (p.2 = t))

/-- Does the record have a field with the given name and UE type? -/
def hasField (fs : List (String × FieldTy)) (n : String) (t : FieldTy) : Bool :=
  fs.any (fun p => p.1 == n && decide (p.2 = t))

/-- The payload shapes the claim enumerates: channel+operation+value, or a
transform, or a damaged-part index list. -/
def carriesClaimedPayload (fs : List (String × FieldTy)) : Bool :=
  (hasFieldOfTy fs .surfaceChannel && hasFieldOfTy fs .surfaceOperation &&
    hasField fs "Value" .real32) ||
  hasFieldOfTy fs .transformTy || hasFieldOfTy fs .int32Array

/-- C8 counterexample: the claim that every one of the six delta record types
carries an entity GUID (and a payload from the enumerated shapes) fails at
concrete records: `FSurfaceTileDelta` is one of the six yet has no GUID-typed
field, and `FRemoveDelta` is one of the six yet its payload (a removal-reason
name) is none of the enumerated payload shapes. -/
theorem c8_counterexample_surface_delta_has_no_guid :
    surfaceTileDeltaFields ∈ allDeltaFieldLists ∧
    hasFieldOfTy surfaceTileDeltaFields FieldTy.guid = false ∧
    removeDeltaFields ∈ allDeltaFieldLists ∧
    carriesClaimedPayload removeDeltaFields = false := by
  decide

/-- C8 (amended): every one of the six delta record types carries a CellKey
and a double Timestamp; the fracture, transform, spawn, remove and assembly
deltas carry an entity GUID, while the surface tile delta does not (it carries
a tile index and author name instead); the payloads are channel+operation+value
for the surface delta, a broken/damaged-part index list for the fracture and
assembly deltas, a transform for the transform, spawn and assembly deltas, and
a removal-reason name (outside the enumerated shapes) for the remove delta. -/
theorem c8_amended_delta_record_shapes :
    hasFieldOfTy surfaceTileDeltaFields FieldTy.cellKey = true ∧
    hasFieldOfTy fractureDeltaFields FieldTy.cellKey = true ∧
    hasFieldOfTy transformDeltaFields FieldTy.cellKey = true ∧
    hasFieldOfTy spawnDeltaFields FieldTy.cellKey = true ∧
    hasFieldOfTy removeDeltaFields FieldTy.cellKey = true ∧
    hasFieldOfTy assemblyDeltaFields FieldTy.cellKey = true ∧
    hasField surfaceTileDeltaFields "Timestamp" FieldTy.real64 = true ∧
    hasField fractureDeltaFields "Timestamp" FieldTy.real64 = true ∧
    hasField transformDeltaFields "Timestamp" FieldTy.real64 = true ∧
    hasField spawnDeltaFields "Timestamp" FieldTy.real64 = true ∧
    hasField removeDeltaFields "Timestamp" FieldTy.real64 = true ∧
    hasField assemblyDeltaFields "Timestamp" FieldTy.real64 = true ∧
    hasFieldOfTy surfaceTileDeltaFields FieldTy.guid = false ∧
    hasFieldOfTy fractureDeltaFields FieldTy.guid = true ∧
    hasFieldOfTy transformDeltaFields FieldTy.guid = true ∧
    hasFieldOfTy spawnDeltaFields FieldTy.guid = true ∧
    hasFieldOfTy removeDeltaFields FieldTy.guid = true ∧
    hasFieldOfTy assemblyDeltaFields FieldTy.guid = true ∧
    carriesClaimedPayload surfaceTileDeltaFields = true ∧
    carriesClaimedPayload fractureDeltaFields = true ∧
    carriesClaimedPayload transformDeltaFields = true ∧
    carriesClaimedPayload spawnDeltaFields = true ∧
    carriesClaimedPayload assemblyDeltaFields = true ∧
    carriesClaimedPayload removeDeltaFields = false ∧
    hasField removeDeltaFields "RemovalReason" FieldTy.name = true := by
  decide

/-!
Spec identifiers and runtime spec structs from SpecTypes.h, and the resolution
logic of USurfaceQuerySubsystem and UEnvironmentSubsystem.
-/

/-- `FSurfaceSpecId` (SpecTypes.h): a named surface spec identifier. -/
structure FSurfaceSpecId where
  Id : String

/-- `FMediumSpecId` (SpecTypes.h): a named medium spec identifier. -/
structure FMediumSpecId where
  Id : String

/-- `FTemperatureResponseLUT` (SpecTypes.h). -/
structure FTemperatureResponseLUT where
  MinTempK : ℝ
  MaxTempK : ℝ
  Samples : List ℝ

/-- `FRuntimeSurfaceSpec` (SpecTypes.h lines 483-562), field for field. -/
structure FRuntimeSurfaceSpec where
  SpecId : String
  Version : Int
  DisplayName : String
  StaticFriction : ℝ
  DynamicFriction : ℝ
  Restitution : ℝ
  WetFrictionMultiplier : ℝ
  DeformationStrength : ℝ
  DeformationRatePerS : ℝ
  MaxDeformationDepthCm : ℝ
  RecoveryRatePerS : ℝ
  RollingResistance : ℝ
  FootstepImpulseDamping : ℝ
  ThermalConductivityWmK : ℝ
  HeatCapacityJkgK : ℝ
  Emissivity01 : ℝ
  bHasTemperatureResponse : Bool
  TempFrictionLUT : FTemperatureResponseLUT
  bIsDeformable : Bool
  bIsSlippery : Bool
  bAffectedByWetness : Bool

/-- Default-constructed `FRuntimeSurfaceSpec` (the member initialisers of
SpecTypes.h). -/
def defaultRuntimeSurfaceSpec : FRuntimeSurfaceSpec where
  SpecId := "None"
  Version := 1
  DisplayName := ""
  StaticFriction := 0.8
  DynamicFriction := 0.6
  Restitution := 0.2
  WetFrictionMultiplier := 0.7
  DeformationStrength := 0.0
  DeformationRatePerS := 0.0
  MaxDeformationDepthCm := 0.0
  RecoveryRatePerS := 0.0
  RollingResistance := 0.01
  FootstepImpulseDamping := 0.0
  ThermalConductivityWmK := 1.0
  HeatCapacityJkgK := 1000.0
  Emissivity01 := 0.9
  bHasTemperatureResponse := false
  TempFrictionLUT := { MinTempK := 200.0, MaxTempK := 350.0, Samples := [] }
  bIsDeformable := false
  bIsSlippery := false
  bAffectedByWetness := true

/-- `USurfaceQuerySubsystem::FallbackSurfaceSpec`
(SurfaceQuerySubsystem.cpp lines 11-25): the hardcoded static fallback. -/
def FallbackSurfaceSpec : FRuntimeSurfaceSpec :=
  { defaultRuntimeSurfaceSpec with
      DisplayName := "Default"
      StaticFriction := 0.7
      DynamicFriction := 0.5
      Restitution := 0.3
      bIsDeformable := false
      bIsSlippery := false
      bAffectedByWetness := false
      ThermalConductivityWmK := 0.026
      HeatCapacityJkgK := 1005.0
      Emissivity01 := 0.9 }

/-- `FRuntimeMediumSpec` (SpecTypes.h lines 593-658), field for field. -/
structure FRuntimeMediumSpec where
  SpecId : String
  Version : Int
  DisplayName : String
  Density : ℝ
  LinearDragCoeff : ℝ
  QuadraticDragCoeff : ℝ
  Viscosity : ℝ
  PressurePa : ℝ
  TemperatureK : ℝ
  ThermalConductivityWmK : ℝ
  HeatCapacityJkgK : ℝ
  SolarIrradiance_Wm2 : ℝ
  SunDirection : FVector
  Gravity : FVector
  SpeedOfSound : ℝ
  AbsorptionCoefficient : ℝ

/-- Default-constructed `FRuntimeMediumSpec` (the member initialisers of
SpecTypes.h). -/
def defaultRuntimeMediumSpec : FRuntimeMediumSpec where
  SpecId := "None"
  Version := 1
  DisplayName := ""
  Density := 1.225
  LinearDragCoeff := 0.1
  QuadraticDragCoeff := 0.01
  Viscosity := 1.8e-5
  PressurePa := 101325.0
  TemperatureK := 288.0
  ThermalConductivityWmK := 0.026
  HeatCapacityJkgK := 1005.0
  SolarIrradiance_Wm2 := 800.0
  SunDirection := { X := 1, Y := 0, Z := 0 }
  Gravity := { X := 0, Y := 0, Z := -980.0 }
  SpeedOfSound := 343.0
  AbsorptionCoefficient := 0.01

/-- `UEnvironmentSubsystem::FallbackMediumSpec`
(EnvironmentSubsystem.cpp lines 11-22): the hardcoded static fallback. -/
def FallbackMediumSpec : FRuntimeMediumSpec :=
  { defaultRuntimeMediumSpec with
      DisplayName := "Earth Atmosphere"
      Density := 1.225
      QuadraticDragCoeff := 0.5
      Viscosity := 1.8e-5
      SpeedOfSound := 343.0
      AbsorptionCoefficient := 0.01 }

/-- `USurfaceSpec` DataAsset (SpecTypes.h lines 131-209); response curves are
modelled as key lists, soft object pointers as path strings. -/
structure USurfaceSpec where
  SpecId : FSurfaceSpecId
  DisplayName : String
  FrictionStatic : ℝ
  FrictionDynamic : ℝ
  Restitution : ℝ
  Compliance : ℝ
  DeformationStrength : ℝ
  DeformationRecoveryRate : ℝ
  WetnessResponseCurve : List (ℝ × ℝ)
  TemperatureResponseCurve : List (ℝ × ℝ)
  ThermalConductivityWmK : ℝ
  HeatCapacityJkgK : ℝ
  Emissivity01 : ℝ
  FXProfileId : String
  PhysicalMaterial : String

/-- `UMediumSpec` DataAsset (SpecTypes.h lines 220-305). -/
structure UMediumSpec where
  SpecId : FMediumSpecId
  DisplayName : String
  Density : ℝ
  ViscosityProxy : ℝ
  Pressure : ℝ
  TemperatureK : ℝ
  ThermalConductivityWmK : ℝ
  HeatCapacityJkgK : ℝ
  BackgroundRadiationTempK : ℝ
  SolarIrradianceWm2 : ℝ
  SunDirection : FVector
  GravityVector : FVector
  LinearDragCoeff : ℝ
  QuadraticDragCoeff : ℝ
  BuoyancyScale : ℝ
  SpeedOfSound : ℝ
  SoundAttenuationMultiplier : ℝ

/-- `TMap::Find` on an association list keyed by name: the value of the
(unique) entry with the given key. -/
def assocFind {α : Type} (l : List (String × α)) (k : String) : Option α :=
  (l.find? (fun p => p.1 == k)).map (fun p => p.2)

/-- The registries of `USurfaceQuerySubsystem` relevant to spec resolution
(SurfaceQuerySubsystem.h): the DataAsset registry keyed by physical material
(modelled by material name) and the runtime registry keyed by spec id. -/
structure USurfaceQuerySubsystem where
  SurfaceSpecMap : List (String × USurfaceSpec)
  RuntimeSurfaceSpecs : List (String × FRuntimeSurfaceSpec)

/-- The registries of `UEnvironmentSubsystem` relevant to spec resolution
(EnvironmentSubsystem.h lines 239, 254): the DataAsset registry keyed by name
and the runtime registry keyed by spec id. -/
structure UEnvironmentSubsystem where
  MediumSpecMap : List (String × UMediumSpec)
  RuntimeMediumSpecs : List (String × FRuntimeMediumSpec)

/-- `USurfaceQuerySubsystem::ResolveSurfaceSpec` (SurfaceQuerySubsystem.cpp
lines 311-330): check the runtime registry; otherwise assign the static
fallback and return false. The DataAsset registry is not consulted (the body
notes id lookup on it is not supported in the current design). The returned
pair models (OutSpec, return value). -/
def resolveSurfaceSpec (s : USurfaceQuerySubsystem) (id : FSurfaceSpecId) :
    FRuntimeSurfaceSpec × Bool :=
  match assocFind s.RuntimeSurfaceSpecs id.Id with
  | some spec => (spec, true)
  | none => (FallbackSurfaceSpec, false)

/-- `UEnvironmentSubsystem::ResolveMediumSpec` (EnvironmentSubsystem.cpp
lines 395-414): check the runtime registry; otherwise assign the static
fallback and return false. The DataAsset registry is not consulted (the body
notes the asset cannot be converted to the runtime struct). -/
def resolveMediumSpec (e : UEnvironmentSubsystem) (id : FMediumSpecId) :
    FRuntimeMediumSpec × Bool :=
  match assocFind e.RuntimeMediumSpecs id.Id with
  | some spec => (spec, true)
  | none => (FallbackMediumSpec, false)

/-- `FMath::Clamp(x, lo, hi)`. -/
noncomputable def fclamp (x lo hi : ℝ) : ℝ :=
  min (max x lo) hi

/-- `FRuntimeMediumSpec::ValidateAndClamp` (SpecTypes.h lines 658-676): clamp
each listed field to its valid range. The source mutates in place and returns
whether anything changed; the only caller in the repository
(`UMediumSpec::ToStruct`) discards that flag, so the model returns just the
clamped struct. -/
noncomputable def FRuntimeMediumSpec.ValidateAndClamp (s : FRuntimeMediumSpec) :
    FRuntimeMediumSpec :=
  { s with
      Density := fclamp s.Density 0 2000
      LinearDragCoeff := fclamp s.LinearDragCoeff 0 10
      QuadraticDragCoeff := fclamp s.QuadraticDragCoeff 0 10
      Viscosity := fclamp s.Viscosity 0 100
      PressurePa := fclamp s.PressurePa 0 1e8
      TemperatureK := fclamp s.TemperatureK 0 10000
      ThermalConductivityWmK := fclamp s.ThermalConductivityWmK 0 1000
      SpeedOfSound := fclamp s.SpeedOfSound 0 10000
      AbsorptionCoefficient := fclamp s.AbsorptionCoefficient 0 1 }

/-- `UMediumSpec::ToStruct` (SpecTypes.cpp lines 115-144): convert the
DataAsset to a runtime struct in the out-parameter `out` — identity fields,
the physical/thermal/gravity/audio copies (Pressure kPa → Pa, thermal
conductivity falling back to the 0.026 air value when not positive,
AbsorptionCoefficient = Clamp(1 − SoundAttenuationMultiplier, 0, 1)), then
ValidateAndClamp. Fields ToStruct never assigns (HeatCapacityJkgK,
SolarIrradiance_Wm2, SunDirection) keep `out`'s values. The source's constant
`return true` is dropped. -/
noncomputable def UMediumSpec.ToStruct (a : UMediumSpec) (out : FRuntimeMediumSpec) :
    FRuntimeMediumSpec :=
  FRuntimeMediumSpec.ValidateAndClamp
    { out with
        SpecId := a.SpecId.Id
        Version := 1
        DisplayName := a.DisplayName
        Density := a.Density
        LinearDragCoeff := a.LinearDragCoeff
        QuadraticDragCoeff := a.QuadraticDragCoeff
        Viscosity := a.ViscosityProxy
        PressurePa := a.Pressure * 1000
        TemperatureK := a.TemperatureK
        ThermalConductivityWmK :=
          if a.ThermalConductivityWmK > 0 then a.ThermalConductivityWmK else 0.026
        Gravity := a.GravityVector
        SpeedOfSound := a.SpeedOfSound
        AbsorptionCoefficient := fclamp (1 - a.SoundAttenuationMultiplier) 0 1 }

/-- Modelled from the spec: the three-tier dictionary lookup the spec
describes for medium spec resolution — runtime (SpecPack/JSON) registry, then
DataAsset registry, then hardcoded static fallback, returning the spec from
the first tier that contains the id. No such resolution exists in the code
(the DataAsset tier of ResolveMediumSpec is only a comment and a TODO); the
DataAsset tier here converts the asset with the repository's own
`UMediumSpec::ToStruct` applied to a default-constructed runtime spec. -/
noncomputable def resolveMediumSpecThreeTier (e : UEnvironmentSubsystem)
    (id : FMediumSpecId) : FRuntimeMediumSpec × Bool :=
  match assocFind e.RuntimeMediumSpecs id.Id with
  | some spec => (spec, true)
  | none =>
    match assocFind e.MediumSpecMap id.Id with
    | some asset => (UMediumSpec.ToStruct asset defaultRuntimeMediumSpec, true)
    | none => (FallbackMediumSpec, false)

/-- C2: spec resolution never fails. For every spec id, `ResolveSurfaceSpec`
and `ResolveMediumSpec` always assign the output spec: the registered runtime
spec (returning true) when the id is in the runtime registry, and otherwise
the hardcoded static fallback (returning false), whose display names are
"Default" and "Earth Atmosphere" respectively. -/
theorem c2_spec_resolution_never_fails :
    (∀ s id spec, assocFind s.RuntimeSurfaceSpecs id.Id = some spec →
      resolveSurfaceSpec s id = (spec, true)) ∧
    (∀ s id, assocFind s.RuntimeSurfaceSpecs id.Id = none →
      resolveSurfaceSpec s id = (FallbackSurfaceSpec, false)) ∧
    (∀ e id spec, assocFind e.RuntimeMediumSpecs id.Id = some spec →
      resolveMediumSpec e id = (spec, true)) ∧
    (∀ e id, assocFind e.RuntimeMediumSpecs id.Id = none →
      resolveMediumSpec e id = (FallbackMediumSpec, false)) ∧
    FallbackSurfaceSpec.DisplayName = "Default" ∧
    FallbackMediumSpec.DisplayName = "Earth Atmosphere" := by
  refine ⟨?_, ?_, ?_, ?_, rfl, rfl⟩
  · intro s id spec h
    simp [resolveSurfaceSpec, h]
  · intro s id h
    simp [resolveSurfaceSpec, h]
  · intro e id spec h
    simp [resolveMediumSpec, h]
  · intro e id h
    simp [resolveMediumSpec, h]

/-- Sample runtime surface spec used to instantiate C2 concretely. -/
def iceRuntimeSurfaceSpec : FRuntimeSurfaceSpec :=
  { defaultRuntimeSurfaceSpec with
      SpecId := "Ice"
      DisplayName := "Ice"
      StaticFriction := 0.1
      DynamicFriction := 0.05
      bIsSlippery := true }

/-- Witness for C2: at a registry holding only an "Ice" surface spec, the
resolver returns that spec with true, while an empty medium registry resolves
any id to the fallback with false. -/
theorem c2_witness :
    resolveSurfaceSpec ⟨[], [("Ice", iceRuntimeSurfaceSpec)]⟩ ⟨"Ice"⟩ =
      (iceRuntimeSurfaceSpec, true) ∧
    resolveMediumSpec ⟨[], []⟩ ⟨"Water"⟩ = (FallbackMediumSpec, false) :=
  ⟨c2_spec_resolution_never_fails.1 ⟨[], [("Ice", iceRuntimeSurfaceSpec)]⟩ ⟨"Ice"⟩
      iceRuntimeSurfaceSpec rfl,
   c2_spec_resolution_never_fails.2.2.2.1 ⟨[], []⟩ ⟨"Water"⟩ rfl⟩

/-- Sample `UMediumSpec` DataAsset present only in the DataAsset registry,
used to exhibit the C7 counterexample. -/
def graniteMediumAsset : UMediumSpec where
  SpecId := ⟨"Granite"⟩
  DisplayName := "Granite"
  Density := 2700.0
  ViscosityProxy := 0.001
  Pressure := 101.325
  TemperatureK := 288.0
  ThermalConductivityWmK := 2.8
  HeatCapacityJkgK := 790.0
  BackgroundRadiationTempK := 288.0
  SolarIrradianceWm2 := 0.0
  SunDirection := { X := 0, Y := 0, Z := -1 }
  GravityVector := { X := 0, Y := 0, Z := -980.0 }
  LinearDragCoeff := 0.1
  QuadraticDragCoeff := 0.01
  BuoyancyScale := 1.0
  SpeedOfSound := 343.0
  SoundAttenuationMultiplier := 1.0

/-- An environment subsystem whose DataAsset registry contains "Granite" and
whose runtime registry is empty. -/
def c7EnvState : UEnvironmentSubsystem where
  MediumSpecMap := [("Granite", graniteMediumAsset)]
  RuntimeMediumSpecs := []

/-- C7 counterexample: with "Granite" present in the DataAsset registry and
absent from the runtime registry, the three-tier lookup the claim describes
would return the DataAsset spec, but `ResolveMediumSpec` returns the hardcoded
fallback ("Earth Atmosphere", false) — the DataAsset tier is never consulted. -/
theorem c7_counterexample_dataasset_tier_not_consulted :
    assocFind c7EnvState.MediumSpecMap "Granite" = some graniteMediumAsset ∧
    assocFind c7EnvState.RuntimeMediumSpecs "Granite" = none ∧
    (resolveMediumSpec c7EnvState ⟨"Granite"⟩).1.DisplayName = "Earth Atmosphere" ∧
    (resolveMediumSpec c7EnvState ⟨"Granite"⟩).2 = false ∧
    (resolveMediumSpecThreeTier c7EnvState ⟨"Granite"⟩).1.DisplayName = "Granite" ∧
    resolveMediumSpec c7EnvState ⟨"Granite"⟩ ≠ resolveMediumSpecThreeTier c7EnvState ⟨"Granite"⟩ := by
  refine ⟨rfl, rfl, rfl, rfl, rfl, fun h => ?_⟩
  have h2 : ("Earth Atmosphere" : String) = "Granite" :=
    congrArg (fun p => p.1.DisplayName) h
  exact absurd h2 (by decide)

/-- C7 (amended): spec resolution is a two-tier lookup. Both resolvers consult
only the runtime (SpecPack/JSON) registry and then the hardcoded static
fallback; the DataAsset registry named by the in-code resolution-order comment
is never consulted, so resolution is invariant under any change to it, and
equals the spec's three-tier lookup with an empty DataAsset tier. -/
theorem c7_amended_two_tier_resolution :
    (∀ s m id, resolveSurfaceSpec { s with SurfaceSpecMap := m } id = resolveSurfaceSpec s id) ∧
    (∀ e m id, resolveMediumSpec { e with MediumSpecMap := m } id = resolveMediumSpec e id) ∧
    (∀ e id, resolveMediumSpec e id =
      resolveMediumSpecThreeTier { e with MediumSpecMap := [] } id) := by
  refine ⟨fun s m id => rfl, fun e m id => rfl, fun e id => ?_⟩
  cases h : assocFind e.RuntimeMediumSpecs id.Id <;>
    simp [resolveMediumSpec, resolveMediumSpecThreeTier, assocFind, h]

/-!
The SpecPack JSON loader (SpecPackLoader.cpp). File reading, JSON
deserialisation and hashing are engine services, passed in as parameters:
`fs` maps a path to its content when the file is readable, `parse` maps a
content string to the root JSON object when it deserialises to a valid
object, `hash` is the content hash, `now` the current UTC timestamp.
-/

/-- A JSON value (model of the engine's FJsonValue). -/
inductive JsonValue
  | null
  | boolean (b : Bool)
  | num (q : ℚ)
  | str (s : String)
  | arr (xs : List JsonValue)
  | obj (fields : List (String × JsonValue))

/-- A JSON object (model of FJsonObject): its field list. -/
abbrev JsonObject := List (String × JsonValue)

/-- `FJsonObject::TryGetArrayField`. -/
def tryGetArrayField (o : JsonObject) (k : String) : Option (List JsonValue) :=
  match assocFind o k with
  | some (.arr xs) => some xs
  | _ => none

/-- `FJsonObject::TryGetStringField`. -/
def tryGetStringField (o : JsonObject) (k : String) : Option String :=
  match assocFind o k with
  | some (.str s) => some s
  | _ => none

/-- `FJsonObject::TryGetNumberField`. -/
def tryGetNumberField (o : JsonObject) (k : String) : Option ℚ :=
  match assocFind o k with
  | some (.num q) => some q
  | _ => none

/-- `FJsonObject::TryGetBoolField`. -/
def tryGetBoolField (o : JsonObject) (k : String) : Option Bool :=
  match assocFind o k with
  | some (.boolean b) => some b
  | _ => none

/-- `FJsonValue::TryGetObject`. -/
def tryGetObject (v : JsonValue) : Option JsonObject :=
  match v with
  | .obj o => some o
  | _ => none

/-- `FJsonValue::TryGetString`. -/
def tryGetString (v : JsonValue) : Option String :=
  match v with
  | .str s => some s
  | _ => none

/-- Apply a numeric-field update when the field is present (the
`TryGetNumberField(..., Spec.X)` pattern of ParseSurfaceSpecs). -/
def updNum {α : Type} (o : JsonObject) (k : String) (f : ℝ → α → α) (s : α) : α :=
  match tryGetNumberField o k with
  | some q => f (q : ℝ) s
  | none => s

/-- Apply a string-field update when the field is present. -/
def updStr {α : Type} (o : JsonObject) (k : String) (f : String → α → α) (s : α) : α :=
  match tryGetStringField o k with
  | some v => f v s
  | none => s

/-- Apply a bool-field update when the field is present. -/
def updBool {α : Type} (o : JsonObject) (k : String) (f : Bool → α → α) (s : α) : α :=
  match tryGetBoolField o k with
  | some v => f v s
  | none => s

/-- One iteration of `USpecPackLoader::ParseSurfaceSpecs` (SpecPackLoader.cpp
lines 177-235): skip non-objects and entries without an "id" string; otherwise
read the optional fields into a default-constructed runtime spec. -/
def parseSurfaceSpecEntry (v : JsonValue) : Option (String × FRuntimeSurfaceSpec) :=
  match tryGetObject v with
  | none => none
  | some o =>
    match tryGetStringField o "id" with
    | none => none
    | some idStr =>
      let spec := defaultRuntimeSurfaceSpec
      let spec := updStr o "display_name" (fun v s => { s with DisplayName := v }) spec
      let spec := updNum o "static_friction" (fun v s => { s with StaticFriction := v }) spec
      let spec := updNum o "dynamic_friction" (fun v s => { s with DynamicFriction := v }) spec
      let spec := updNum o "restitution" (fun v s => { s with Restitution := v }) spec
      let spec := updNum o "deformation_rate" (fun v s => { s with DeformationRatePerS := v }) spec
      let spec := updNum o "max_deformation_depth"
        (fun v s => { s with MaxDeformationDepthCm := v }) spec
      let spec := updNum o "recovery_rate" (fun v s => { s with RecoveryRatePerS := v }) spec
      let spec := updBool o "is_deformable" (fun v s => { s with bIsDeformable := v }) spec
      let spec := updBool o "is_slippery" (fun v s => { s with bIsSlippery := v }) spec
      some (idStr, spec)

/-- `USpecPackLoader::ParseSurfaceSpecs`: the (id, spec) pairs handed to
RegisterSurfaceSpec, in array order; the function's return value is their
count. -/
def parseSurfaceSpecs (root : JsonObject) : List (String × FRuntimeSurfaceSpec) :=
  match tryGetArrayField root "surface_specs" with
  | none => []
  | some arr => arr.filterMap parseSurfaceSpecEntry

/-- One iteration of `USpecPackLoader::ParseMediumSpecs` (SpecPackLoader.cpp
lines 237-290). -/
def parseMediumSpecEntry (v : JsonValue) : Option (String × FRuntimeMediumSpec) :=
  match tryGetObject v with
  | none => none
  | some o =>
    match tryGetStringField o "id" with
    | none => none
    | some idStr =>
      let spec := defaultRuntimeMediumSpec
      let spec := updStr o "display_name" (fun v s => { s with DisplayName := v }) spec
      let spec := updNum o "density" (fun v s => { s with Density := v }) spec
      let spec := updNum o "drag_coefficient" (fun v s => { s with QuadraticDragCoeff := v }) spec
      let spec := updNum o "viscosity" (fun v s => { s with Viscosity := v }) spec
      let spec := updNum o "speed_of_sound" (fun v s => { s with SpeedOfSound := v }) spec
      let spec := updNum o "absorption_coefficient"
        (fun v s => { s with AbsorptionCoefficient := v }) spec
      some (idStr, spec)

/-- `USpecPackLoader::ParseMediumSpecs`: the (id, spec) pairs handed to
RegisterMediumSpec, in array order. -/
def parseMediumSpecs (root : JsonObject) : List (String × FRuntimeMediumSpec) :=
  match tryGetArrayField root "medium_specs" with
  | none => []
  | some arr => arr.filterMap parseMediumSpecEntry

/-- `FSpecPackManifest` (SpecPackLoader.h), with FDateTime modelled as an
integer timestamp. -/
structure FSpecPackManifest where
  PackId : String
  Version : Int
  ContentHash : String
  EngineCompat : String
  Timestamp : Int
  ContainedSpecTypes : List String

/-- Default-constructed `FSpecPackManifest`. -/
def defaultSpecPackManifest : FSpecPackManifest where
  PackId := ""
  Version := 1
  ContentHash := ""
  EngineCompat := "5.7"
  Timestamp := 0
  ContainedSpecTypes := []

/-- `USpecPackLoader::ParseManifest` (SpecPackLoader.cpp lines 299-321):
overwrite the default fields with whichever manifest fields are present and
stamp the current time. -/
def parseManifest (root : JsonObject) (now : Int) : FSpecPackManifest :=
  let m := defaultSpecPackManifest
  let m := updStr root "pack_id" (fun v s => { s with PackId := v }) m
  let m := match tryGetNumberField root "version" with
    | some q => { m with Version := ⌊q⌋ }
    | none => m
  let m := updStr root "engine_compat" (fun v s => { s with EngineCompat := v }) m
  let m := match tryGetArrayField root "spec_types" with
    | some arr => { m with ContainedSpecTypes := arr.filterMap tryGetString }
    | none => m
  { m with Timestamp := now }

/-- `FSpecPackLoadResult` (SpecPackLoader.h lines 122-145), field for field. -/
structure FSpecPackLoadResult where
  bSuccess : Bool
  ErrorMessage : String
  Manifest : FSpecPackManifest
  SurfaceSpecsLoaded : ℕ
  MediumSpecsLoaded : ℕ
  BiomeSpecsLoaded : ℕ

/-- Default-constructed `FSpecPackLoadResult`: bSuccess false, empty error,
zero counts. -/
def defaultSpecPackLoadResult : FSpecPackLoadResult where
  bSuccess := false
  ErrorMessage := ""
  Manifest := defaultSpecPackManifest
  SurfaceSpecsLoaded := 0
  MediumSpecsLoaded := 0
  BiomeSpecsLoaded := 0

/-- State of `USpecPackLoader`: the default pack path and the manifest cache. -/
structure USpecPackLoader where
  DefaultSpecPackPath : String
  CachedManifests : List (String × FSpecPackManifest)

/-- A freshly constructed `USpecPackLoader`. -/
def newSpecPackLoader : USpecPackLoader where
  DefaultSpecPackPath := "SpecPacks/Core.json"
  CachedManifests := []

/-- `TMap::Add`: replace the entry with the key if present, else append. -/
def assocAdd {α : Type} (l : List (String × α)) (k : String) (v : α) :
    List (String × α) :=
  if (l.find? (fun p => p.1 == k)).isSome
  then l.map (fun p => if p.1 == k then (k, v) else p)
  else l ++ [(k, v)]

/-- `USpecPackLoader::GetSpecPackHash` (SpecPackLoader.cpp lines 153-165):
hash of the file content, or the empty string when the file cannot be read. -/
def getSpecPackHash (fs : String → Option String) (hash : String → String)
    (path : String) : String :=
  match fs path with
  | some s => hash s
  | none => ""

/-- `USpecPackLoader::LoadSpecPack` (SpecPackLoader.cpp lines 29-69). Returns
the result struct together with the loader state after the call. On a read or
parse failure it returns the default result with only ErrorMessage set; on
success it parses the manifest (stamping the file hash), parses the spec
arrays, caches the manifest and reports the counts with bSuccess true
(ParseBiomeSpecs is a stub returning 0). -/
def loadSpecPack (fs : String → Option String) (parse : String → Option JsonObject)
    (hash : String → String) (now : Int) (loader : USpecPackLoader) (path : String) :
    FSpecPackLoadResult × USpecPackLoader :=
  match fs path with
  | none =>
    ({ defaultSpecPackLoadResult with ErrorMessage := "Failed to read file: " ++ path }, loader)
  | some content =>
    match parse content with
    | none =>
      ({ defaultSpecPackLoadResult with ErrorMessage := "Failed to parse JSON" }, loader)
    | some root =>
      let manifest := { parseManifest root now with ContentHash := getSpecPackHash fs hash path }
      let result : FSpecPackLoadResult :=
        { bSuccess := true
          ErrorMessage := ""
          Manifest := manifest
          SurfaceSpecsLoaded := (parseSurfaceSpecs root).length
          MediumSpecsLoaded := (parseMediumSpecs root).length
          BiomeSpecsLoaded := 0 }
      (result, { loader with CachedManifests := assocAdd loader.CachedManifests path manifest })

lemma append_ne_empty_of_left_ne_empty (a b : String) (ha : a.length ≠ 0) :
    a ++ b ≠ "" := by
  intro h
  have h2 := congrArg String.length h
  rw [String.length_append] at h2
  simp at h2
  exact ha h2.1

/-- C3: `LoadSpecPack` fails exactly on unreadable or unparsable input. The
result has bSuccess false and a non-empty ErrorMessage precisely when the file
cannot be read or its content does not parse as a JSON object; on such a
failure the spec counts stay zero and the loader state (its manifest cache) is
unchanged; in every other case bSuccess is true. -/
theorem c3_load_spec_pack_failure_conditions :
    ∀ (fs : String → Option String) (parse : String → Option JsonObject)
      (hash : String → String) (now : Int) (loader : USpecPackLoader) (path : String),
      (((loadSpecPack fs parse hash now loader path).1.bSuccess = false ∧
        (loadSpecPack fs parse hash now loader path).1.ErrorMessage ≠ "") ↔
        (fs path = none ∨ ∃ c, fs path = some c ∧ parse c = none)) ∧
      ((fs path = none ∨ (∃ c, fs path = some c ∧ parse c = none)) →
        (loadSpecPack fs parse hash now loader path).1.SurfaceSpecsLoaded = 0 ∧
        (loadSpecPack fs parse hash now loader path).1.MediumSpecsLoaded = 0 ∧
        (loadSpecPack fs parse hash now loader path).1.BiomeSpecsLoaded = 0 ∧
        (loadSpecPack fs parse hash now loader path).2 = loader) ∧
      (∀ c root, fs path = some c → parse c = some root →
        (loadSpecPack fs parse hash now loader path).1.bSuccess = true) := by
  intro fs parse hash now loader path
  cases hf : fs path with
  | none =>
    refine ⟨?_, ?_, ?_⟩
    · simp [loadSpecPack, hf, defaultSpecPackLoadResult]
      exact append_ne_empty_of_left_ne_empty _ _ (by decide)
    · intro _
      simp [loadSpecPack, hf, defaultSpecPackLoadResult]
    · intro c root hc hr
      exact Option.noConfusion hc
  | some content =>
    cases hp : parse content with
    | none =>
      refine ⟨?_, ?_, ?_⟩
      · simp [loadSpecPack, hf, hp, defaultSpecPackLoadResult]
      · intro _
        simp [loadSpecPack, hf, hp, defaultSpecPackLoadResult]
      · intro c root hc hr
        injection hc with hcc
        subst hcc
        rw [hp] at hr
        exact Option.noConfusion hr
    | some root =>
      refine ⟨?_, ?_, ?_⟩
      · simp [loadSpecPack, hf, hp]
      · intro h
        rcases h with h | ⟨c, hc, hpc⟩
        · exact Option.noConfusion h
        · injection hc with hcc
          subst hcc
          rw [hp] at hpc
          exact Option.noConfusion hpc
      · intro c r hc hr
        simp [loadSpecPack, hf, hp]

/-- Witness for C3: an unreadable file yields zero counts and an unchanged
loader; a readable file whose content parses to the empty JSON object yields
bSuccess true. -/
theorem c3_witness :
    (loadSpecPack (fun _ => none) (fun _ => none) (fun _ => "") 0
      newSpecPackLoader "Core.json").1.SurfaceSpecsLoaded = 0 ∧
    (loadSpecPack (fun _ => none) (fun _ => none) (fun _ => "") 0
      newSpecPackLoader "Core.json").2 = newSpecPackLoader ∧
    (loadSpecPack (fun _ => some "x") (fun _ => some []) (fun _ => "h") 0
      newSpecPackLoader "Core.json").1.bSuccess = true := by
  refine ⟨?_, ?_, ?_⟩
  · exact ((c3_load_spec_pack_failure_conditions (fun _ => none) (fun _ => none)
      (fun _ => "") 0 newSpecPackLoader "Core.json").2.1 (Or.inl rfl)).1
  · exact ((c3_load_spec_pack_failure_conditions (fun _ => none) (fun _ => none)
      (fun _ => "") 0 newSpecPackLoader "Core.json").2.1 (Or.inl rfl)).2.2.2
  · exact (c3_load_spec_pack_failure_conditions (fun _ => some "x") (fun _ => some [])
      (fun _ => "h") 0 newSpecPackLoader "Core.json").2.2 "x" [] rfl rfl

/-!
Astronomical and atmospheric math: `SolarMath` helpers and
`USolarSystemSubsystem::ComputeGMSTAngleRad_FromJD` / `ComputeMoonState`
(SolarSystemSubsystem.cpp), and `UGlobalAtmosphereField::GetPressureAtAltitude`
(GlobalAtmosphereField.cpp). Doubles are idealised as reals; the source's
`TwoPi` literal (2π to more digits than a double holds) is idealised as the
exact 2π, and `PI / 180.0` as π / 180.
-/

/-- Truncation toward zero, the rounding used by `FMath::Fmod`. -/
noncomputable def rtrunc (x : ℝ) : ℤ :=
  if 0 ≤ x then ⌊x⌋ else ⌈x⌉

/-- `FMath::Fmod` on idealised reals: `a - b * trunc (a / b)` (result carries
the sign of `a`). -/
noncomputable def fmod (a b : ℝ) : ℝ :=
  a - b * (rtrunc (a / b) : ℝ)

/-- `SolarMath::TwoPi` (SolarSystemSubsystem.cpp line 16). -/
noncomputable def TwoPi : ℝ := 2 * Real.pi

/-- `SolarMath::DegToRad` (SolarSystemSubsystem.cpp line 17). -/
noncomputable def DegToRad : ℝ := Real.pi / 180

/-- `SolarMath::Wrap0ToTwoPi` (SolarSystemSubsystem.cpp lines 19-23). -/
noncomputable def wrap0ToTwoPi (rad : ℝ) : ℝ :=
  let x := fmod rad TwoPi
  if x < 0 then x + TwoPi else x

/-- `USolarSystemSubsystem::ComputeGMSTAngleRad_FromJD`
(SolarSystemSubsystem.cpp lines 272-282). -/
noncomputable def computeGMSTAngleRadFromJD (jd : ℝ) : ℝ :=
  let d := jd - 2451545.0
  let gmstHours := 18.697374558 + 24.06570982441908 * d
  let gmstRad := TwoPi * fmod (gmstHours / 24) 1
  wrap0ToTwoPi gmstRad

lemma rtrunc_of_nonneg {x : ℝ} (h : 0 ≤ x) : rtrunc x = ⌊x⌋ := if_pos h

lemma rtrunc_of_neg {x : ℝ} (h : ¬ 0 ≤ x) : rtrunc x = ⌈x⌉ := if_neg h

lemma fmod_one (h : ℝ) :
    fmod h 1 = if 0 ≤ h then Int.fract h else -(Int.fract (-h)) := by
  unfold fmod rtrunc
  rw [div_one]
  split
  · simp only [Int.fract]
    ring
  · have hc : (⌈h⌉ : ℤ) = -⌊-h⌋ := by simpa using Int.ceil_neg (a := -h)
    rw [hc]
    simp only [Int.fract]
    push_cast
    ring

lemma twoPi_pos : 0 < TwoPi := by
  unfold TwoPi
  exact Real.two_pi_pos

lemma fmod_twoPi_mul_of_unit {f : ℝ} (h0 : 0 ≤ f) (h1 : f < 1) :
    fmod (TwoPi * f) TwoPi = TwoPi * f := by
  unfold fmod
  rw [mul_div_cancel_left₀ f (ne_of_gt twoPi_pos), rtrunc_of_nonneg h0,
    Int.floor_eq_zero_iff.mpr (Set.mem_Ico.mpr ⟨h0, h1⟩)]
  simp

lemma fmod_twoPi_mul_of_neg_unit {f : ℝ} (h0 : -1 < f) (h1 : f < 0) :
    fmod (TwoPi * f) TwoPi = TwoPi * f := by
  unfold fmod
  rw [mul_div_cancel_left₀ f (ne_of_gt twoPi_pos), rtrunc_of_neg (not_le.mpr h1),
    Int.ceil_eq_zero_iff.mpr (Set.mem_Ioc.mpr ⟨h0, h1.le⟩)]
  simp

lemma wrap0ToTwoPi_scaled_nonneg {f : ℝ} (h0 : 0 ≤ f) (h1 : f < 1) :
    wrap0ToTwoPi (TwoPi * f) = TwoPi * f := by
  unfold wrap0ToTwoPi
  rw [fmod_twoPi_mul_of_unit h0 h1,
    if_neg (not_lt.mpr (mul_nonneg twoPi_pos.le h0))]

lemma wrap0ToTwoPi_scaled_neg {f : ℝ} (h0 : -1 < f) (h1 : f < 0) :
    wrap0ToTwoPi (TwoPi * f) = TwoPi * (f + 1) := by
  unfold wrap0ToTwoPi
  rw [fmod_twoPi_mul_of_neg_unit h0 h1,
    if_pos (mul_neg_of_pos_of_neg twoPi_pos h1)]
  ring

lemma wrap0ToTwoPi_twoPi_fmod_one (h : ℝ) :
    wrap0ToTwoPi (TwoPi * fmod h 1) = TwoPi * Int.fract h := by
  rw [fmod_one]
  by_cases hh : 0 ≤ h
  · rw [if_pos hh]
    exact wrap0ToTwoPi_scaled_nonneg (Int.fract_nonneg h) (Int.fract_lt_one h)
  · rw [if_neg hh]
    by_cases hz : Int.fract h = 0
    · rw [Int.fract_neg_eq_zero.mpr hz, hz]
      have h2 := wrap0ToTwoPi_scaled_nonneg (f := 0) le_rfl one_pos
      simpa using h2
    · have hpos : 0 < Int.fract h :=
        lt_of_le_of_ne (Int.fract_nonneg h) (Ne.symm hz)
      have hlt := Int.fract_lt_one h
      rw [Int.fract_neg hz, show -(1 - Int.fract h) = Int.fract h - 1 by ring,
        wrap0ToTwoPi_scaled_neg (by linarith) (by linarith)]
      ring

/-- C4: GMST is computed by the stated closed form. For every Julian date,
`ComputeGMSTAngleRad_FromJD` equals 2π times the fractional part of
(18.697374558 + 24.06570982441908 · (JD − 2451545)) / 24, and the result
always lies in the half-open interval [0, 2π). -/
theorem c4_gmst_closed_form :
    ∀ jd : ℝ,
      computeGMSTAngleRadFromJD jd =
        TwoPi * Int.fract ((18.697374558 + 24.06570982441908 * (jd - 2451545.0)) / 24) ∧
      0 ≤ computeGMSTAngleRadFromJD jd ∧
      computeGMSTAngleRadFromJD jd < TwoPi := by
  intro jd
  have heq : computeGMSTAngleRadFromJD jd =
      wrap0ToTwoPi (TwoPi *
        fmod ((18.697374558 + 24.06570982441908 * (jd - 2451545.0)) / 24) 1) := rfl
  rw [heq, wrap0ToTwoPi_twoPi_fmod_one]
  refine ⟨rfl, mul_nonneg twoPi_pos.le (Int.fract_nonneg _), ?_⟩
  have h1 := Int.fract_lt_one ((18.697374558 + 24.06570982441908 * (jd - 2451545.0)) / 24)
  calc TwoPi * Int.fract ((18.697374558 + 24.06570982441908 * (jd - 2451545.0)) / 24)
      < TwoPi * 1 := by exact mul_lt_mul_of_pos_left h1 twoPi_pos
    _ = TwoPi := mul_one _

/-- `USolarSystemSubsystem::ComputeMoonState`
(SolarSystemSubsystem.cpp lines 284-312), as a function of the orbit
parameters `MoonOrbitalPeriodS`, `EarthMoonDistanceKm`, `MoonInclinationDeg`
and the simulation time: the cached moon position (km) and velocity (km/s). -/
noncomputable def computeMoonState (periodS distanceKm inclinationDeg t : ℝ) :
    FVector × FVector :=
  let w := TwoPi / max 1 periodS
  let theta := wrap0ToTwoPi (w * t)
  let R := distanceKm
  let inc := inclinationDeg * DegToRad
  let x := R * Real.cos theta
  let y0 := R * Real.sin theta
  let y := y0 * Real.cos inc
  let z := y0 * Real.sin inc
  let vx := -R * w * Real.sin theta
  let vy0 := R * w * Real.cos theta
  let vy := vy0 * Real.cos inc
  let vz := vy0 * Real.sin inc
  ({ X := x, Y := y, Z := z }, { X := vx, Y := vy, Z := vz })

/-- C5: the lunar model is a circular inclined orbit. For every simulation
time and orbit parameters, the moon position computed by `ComputeMoonState`
satisfies x² + y² + z² = EarthMoonDistanceKm², and the computed velocity
vector is orthogonal to the position vector. -/
theorem c5_moon_circular_inclined_orbit (periodS distanceKm inclinationDeg t : ℝ) :
    ((computeMoonState periodS distanceKm inclinationDeg t).1.X) ^ 2 +
      ((computeMoonState periodS distanceKm inclinationDeg t).1.Y) ^ 2 +
      ((computeMoonState periodS distanceKm inclinationDeg t).1.Z) ^ 2 = distanceKm ^ 2 ∧
    (computeMoonState periodS distanceKm inclinationDeg t).2.X *
        (computeMoonState periodS distanceKm inclinationDeg t).1.X +
      (computeMoonState periodS distanceKm inclinationDeg t).2.Y *
        (computeMoonState periodS distanceKm inclinationDeg t).1.Y +
      (computeMoonState periodS distanceKm inclinationDeg t).2.Z *
        (computeMoonState periodS distanceKm inclinationDeg t).1.Z = 0 := by
  have hA := Real.sin_sq_add_cos_sq (wrap0ToTwoPi (TwoPi / max 1 periodS * t))
  have hB := Real.sin_sq_add_cos_sq (inclinationDeg * DegToRad)
  simp only [computeMoonState]
  set w := TwoPi / max 1 periodS with hw
  set s := Real.sin (wrap0ToTwoPi (w * t)) with hs
  set c := Real.cos (wrap0ToTwoPi (w * t)) with hc
  set si := Real.sin (inclinationDeg * DegToRad) with hsi
  set ci := Real.cos (inclinationDeg * DegToRad) with hci
  constructor
  · linear_combination distanceKm ^ 2 * s ^ 2 * hB + distanceKm ^ 2 * hA
  · linear_combination distanceKm ^ 2 * w * c * s * hB

/-- `UAtmosphereConfig` (GlobalAtmosphereField.h lines 60-140), field for
field. UPROPERTY metadata declares ClampMin 0 on SeaLevelPressure and
ClampMin 100 on PressureScaleHeight. -/
structure UAtmosphereConfig where
  DisplayName : String
  SeaLevelAltitude : ℝ
  SeaLevelPressure : ℝ
  SeaLevelTemperature : ℝ
  SeaLevelDensity : ℝ
  TemperatureLapseRate : ℝ
  PressureScaleHeight : ℝ
  AtmosphereTopAltitude : ℝ
  VacuumDensityThreshold : ℝ
  SpecificGasConstant : ℝ
  HeatCapacityRatio : ℝ
  bIsBreathable : Bool
  BaseWindVelocity : FVector
  WindAltitudeScale : ℝ
  WindGustStrength : ℝ

/-- Default-constructed `UAtmosphereConfig` (the member initialisers of
GlobalAtmosphereField.h): Earth sea-level atmosphere. -/
noncomputable def earthAtmosphereConfig : UAtmosphereConfig where
  DisplayName := ""
  SeaLevelAltitude := 0.0
  SeaLevelPressure := 101.325
  SeaLevelTemperature := 288.15
  SeaLevelDensity := 1.225
  TemperatureLapseRate := 0.65
  PressureScaleHeight := 8500.0
  AtmosphereTopAltitude := 10000000.0
  VacuumDensityThreshold := 0.00001
  SpecificGasConstant := 287.05
  HeatCapacityRatio := 1.4
  bIsBreathable := true
  BaseWindVelocity := { X := 0, Y := 0, Z := 0 }
  WindAltitudeScale := 1.0
  WindGustStrength := 0.1

/-- `UGlobalAtmosphereField::GetPressureAtAltitude`
(GlobalAtmosphereField.cpp lines 73-94): 101.325 without a config; the
sea-level pressure at or below sea level; otherwise the barometric formula
P0 · exp(−h/H) clamped to be non-negative. Altitude is in cm, h = altitude
in metres. -/
noncomputable def getPressureAtAltitude (config : Option UAtmosphereConfig)
    (altitudeCm : ℝ) : ℝ :=
  match config with
  | none => 101.325
  | some cfg =>
    if altitudeCm / 100 ≤ 0 then cfg.SeaLevelPressure
    else
      max (cfg.SeaLevelPressure *
        Real.exp (-(altitudeCm / 100) / cfg.PressureScaleHeight)) 0

/-- C6: pressure follows the barometric formula. With an atmosphere config
whose fields satisfy their declared ClampMin bounds (SeaLevelPressure ≥ 0,
PressureScaleHeight > 0), `GetPressureAtAltitude` returns SeaLevelPressure
when the altitude in metres is ≤ 0, and SeaLevelPressure · exp(−h/H) clamped
to be non-negative otherwise; consequently the returned pressure is never
negative and is monotonically non-increasing in altitude. -/
theorem c6_barometric_pressure (cfg : UAtmosphereConfig) (h : ℝ)
    (hp : 0 ≤ cfg.SeaLevelPressure) (hs : 0 < cfg.PressureScaleHeight) :
    (h / 100 ≤ 0 → getPressureAtAltitude (some cfg) h = cfg.SeaLevelPressure) ∧
    (0 < h / 100 → getPressureAtAltitude (some cfg) h =
      max (cfg.SeaLevelPressure * Real.exp (-(h / 100) / cfg.PressureScaleHeight)) 0) ∧
    0 ≤ getPressureAtAltitude (some cfg) h ∧
    (∀ h2, h ≤ h2 →
      getPressureAtAltitude (some cfg) h2 ≤ getPressureAtAltitude (some cfg) h) := by
  refine ⟨fun hle => by simp [getPressureAtAltitude, hle],
    fun hgt => by simp [getPressureAtAltitude, not_le.mpr hgt], ?_, ?_⟩
  · simp only [getPressureAtAltitude]
    split
    · exact hp
    · exact le_max_right _ (0 : ℝ)
  · intro h2 hh
    have hdiv : h / 100 ≤ h2 / 100 := by linarith
    simp only [getPressureAtAltitude]
    by_cases c1 : h / 100 ≤ 0
    · rw [if_pos c1]
      by_cases c2 : h2 / 100 ≤ 0
      · rw [if_pos c2]
      · rw [if_neg c2]
        have hpos2 : 0 < h2 / 100 := not_le.mp c2
        have hexp : Real.exp (-(h2 / 100) / cfg.PressureScaleHeight) ≤ 1 :=
          Real.exp_le_one_iff.mpr (div_nonpos_of_nonpos_of_nonneg (by linarith) hs.le)
        have hmul : cfg.SeaLevelPressure * Real.exp (-(h2 / 100) / cfg.PressureScaleHeight) ≤
            cfg.SeaLevelPressure := by
          calc cfg.SeaLevelPressure * Real.exp (-(h2 / 100) / cfg.PressureScaleHeight)
              ≤ cfg.SeaLevelPressure * 1 := mul_le_mul_of_nonneg_left hexp hp
            _ = cfg.SeaLevelPressure := mul_one _
        exact max_le hmul hp
    · rw [if_neg c1]
      have c2 : ¬ h2 / 100 ≤ 0 := fun hc => c1 (le_trans hdiv hc)
      rw [if_neg c2]
      have harg : -(h2 / 100) / cfg.PressureScaleHeight ≤
          -(h / 100) / cfg.PressureScaleHeight :=
        (div_le_div_iff_of_pos_right hs).mpr (by linarith)
      exact max_le_max (mul_le_mul_of_nonneg_left (Real.exp_le_exp.mpr harg) hp) le_rfl

/-- Witness for C6 at the default Earth config: its fields meet the declared
clamp bounds, pressure at or below sea level is the sea-level pressure, and
the pressure 8500 m up is non-negative. -/
theorem c6_witness :
    (0 : ℝ) ≤ earthAtmosphereConfig.SeaLevelPressure ∧
    (0 : ℝ) < earthAtmosphereConfig.PressureScaleHeight ∧
    getPressureAtAltitude (some earthAtmosphereConfig) (-100) =
      earthAtmosphereConfig.SeaLevelPressure ∧
    0 ≤ getPressureAtAltitude (some earthAtmosphereConfig) 850000 := by
  have hp : (0 : ℝ) ≤ earthAtmosphereConfig.SeaLevelPressure := by
    norm_num [earthAtmosphereConfig]
  have hs : (0 : ℝ) < earthAtmosphereConfig.PressureScaleHeight := by
    norm_num [earthAtmosphereConfig]
  refine ⟨hp, hs, ?_, ?_⟩
  · exact (c6_barometric_pressure earthAtmosphereConfig (-100) hp hs).1 (by norm_num)
  · exact (c6_barometric_pressure earthAtmosphereConfig 850000 hp hs).2.2.1

end UETPF
